import Mathlib

/-!
Verification development for the veloq Runtime Extension Installation Bridge.

The repository's visible C++ source (`src/modules/veloqrs/cpp/veloq.h`)
is a namespace-forwarding facade: `veloq::installRustCrate` and
`veloq::cleanupRustCrate` forward their arguments unchanged to the
entry points `veloqrs::installRustCrate` / `veloqrs::cleanupRustCrate`
of the opaque capability module.  We embed this facade shallowly,
treating the opaque delegate entry points as function parameters (their
implementation, the `veloqrs` crate glue, is not part of the visible
source).

The registry-backed install/cleanup state machine (RuntimeHandleRegistry
and InstallationBridge) described by the specification lives behind the
opaque delegate, outside the visible source, so it is modelled from the
specification's own contract and verified as such.
-/

set_option autoImplicit false

/-- A `jsi::Runtime &` reference.  Identity is reference identity (the
spec: equality of runtime handles is reference identity), modelled as a
numeric identity. -/
structure JsiRuntime where
  id : Nat
deriving DecidableEq, Repr

/-- A non-empty `std::shared_ptr<react::CallInvoker>`.  Only the pointer
identity is observable to the bridge; an empty (null) shared pointer is
modelled as `none` at the bridge boundary. -/
structure CallInvokerPtr where
  ptr : Nat
deriving DecidableEq, Repr

namespace veloq

/-- Embedding of `veloq::installRustCrate` from
`src/modules/veloqrs/cpp/veloq.h` (lines 11–13): it returns
`veloqrs::installRustCrate(runtime, callInvoker)`.  The opaque delegate
`veloqrs::installRustCrate` is passed in as the function `d`; the status
is a `uint8_t`, modelled as `Nat`. -/
def installRustCrate (d : JsiRuntime → CallInvokerPtr → Nat)
    (runtime : JsiRuntime) (callInvoker : CallInvokerPtr) : Nat :=
  d runtime callInvoker

/-- Embedding of `veloq::cleanupRustCrate` from
`src/modules/veloqrs/cpp/veloq.h` (lines 15–17): it returns
`veloqrs::cleanupRustCrate(runtime)`. -/
def cleanupRustCrate (d : JsiRuntime → Nat) (runtime : JsiRuntime) : Nat :=
  d runtime

/-- Stateful embedding of `veloq::installRustCrate`: the opaque delegate
may read and write arbitrary ambient state (the world `σ`).  The bridge
body is the single delegate call, so it is embedded as exactly that
state transformer applied once. -/
def installRustCrateSt {σ : Type} (d : JsiRuntime → CallInvokerPtr → σ → Nat × σ)
    (runtime : JsiRuntime) (callInvoker : CallInvokerPtr) (w : σ) : Nat × σ :=
  d runtime callInvoker w

/-- Stateful embedding of `veloq::cleanupRustCrate`, as for
`veloq.installRustCrateSt`. -/
def cleanupRustCrateSt {σ : Type} (d : JsiRuntime → σ → Nat × σ)
    (runtime : JsiRuntime) (w : σ) : Nat × σ :=
  d runtime w

end veloq

/-- The specification's notion of a pure delegation facade, written from
its words: "an interface implemented by forwarding every call unchanged
to a distinct underlying implementation" — the facade's install is the
underlying install applied to the unchanged arguments. -/
def specFacadeInstall (underlying : JsiRuntime → CallInvokerPtr → Nat)
    (runtime : JsiRuntime) (callInvoker : CallInvokerPtr) : Nat :=
  underlying runtime callInvoker

/-- The specification's pure delegation facade for cleanup, written from
its words as for `specFacadeInstall`. -/
def specFacadeCleanup (underlying : JsiRuntime → Nat)
    (runtime : JsiRuntime) : Nat :=
  underlying runtime

/-- Status codes of the installation bridge.  Modelled from the spec:
the error taxonomy of §7 (`src/` holds only the forwarding facade; the
bridge's own status values live behind the opaque delegate).  Codes are
small unsigned integers, 0 = success, distinct nonzero values per error
kind. -/
inductive StatusCode where
  | success
  | alreadyInstalled
  | notInstalled
  | invalidArgument
  | delegateInstallFailed
  | delegateCleanupFailed
deriving DecidableEq, Repr

/-- Numeric encoding of a status code (§6: "Status codes are small
unsigned integers (0 = success; distinct nonzero values per error
kind)"). -/
def StatusCode.toNat : StatusCode → Nat
  | .success => 0
  | .alreadyInstalled => 1
  | .notInstalled => 2
  | .invalidArgument => 3
  | .delegateInstallFailed => 4
  | .delegateCleanupFailed => 5

/-- Modelled from the spec: a RuntimeHandle, "an opaque
identifier/reference for one scripting-runtime instance"; identity is
stable, equality is reference identity — modelled as a numeric
identity. -/
abbrev RuntimeHandle := Nat

/-- Modelled from the spec: the RuntimeHandleRegistry of §4.1 (absent
from `src/`, which holds only the forwarding facade).  The records field
is the set of active InstallationRecords, one list entry per record. -/
structure Registry where
  records : List RuntimeHandle
deriving DecidableEq, Repr

namespace Registry

/-- The empty registry: no installation records. -/
def empty : Registry := ⟨[]⟩

/-- Modelled from the spec: `isRegistered(handle) -> bool`, "pure
lookup, no side effects". -/
def isRegistered (r : Registry) (h : RuntimeHandle) : Bool :=
  r.records.contains h

/-- Modelled from the spec: `register(handle) -> bool`, "returns true
and creates a record iff no record exists for handle; otherwise false,
no mutation". -/
def register (r : Registry) (h : RuntimeHandle) : Bool × Registry :=
  if r.isRegistered h then (false, r) else (true, ⟨h :: r.records⟩)

/-- Modelled from the spec: `unregister(handle) -> bool`, "returns true
and removes the record iff one exists; otherwise false, no
mutation". -/
def unregister (r : Registry) (h : RuntimeHandle) : Bool × Registry :=
  if r.isRegistered h then (true, ⟨r.records.erase h⟩) else (false, r)

end Registry

/-- Result of one bridge `install` call: the returned status, the
registry afterwards, and how many times the opaque module's install
entry point was invoked during the call. -/
structure InstallResult where
  status : StatusCode
  registry : Registry
  delegateCalls : Nat
deriving DecidableEq, Repr

/-- Result of one bridge `cleanup` call, as `InstallResult`. -/
structure CleanupResult where
  status : StatusCode
  registry : Registry
  delegateCalls : Nat
deriving DecidableEq, Repr

/-- Modelled from the spec: `install(handle, invoker) -> StatusCode` of
§4.3 (absent from `src/`).  `none` models a null/malformed argument.
Steps, in the spec's order: validate arguments (`InvalidArgument`),
attempt `registry.register` (`AlreadyInstalled` without touching the
opaque module), forward to the opaque module's install entry point
`dInstall` with the arguments unchanged, roll back the registry entry
and return `DelegateInstallFailed` if the delegate reports failure,
otherwise `Success`. -/
def install (dInstall : RuntimeHandle → CallInvokerPtr → Bool)
    (reg : Registry) (handle : Option RuntimeHandle)
    (invoker : Option CallInvokerPtr) : InstallResult :=
  match handle, invoker with
  | some h, some inv =>
    let (ok, reg1) := reg.register h
    if ok then
      if dInstall h inv then
        ⟨.success, reg1, 1⟩
      else
        ⟨.delegateInstallFailed, (reg1.unregister h).2, 1⟩
    else
      ⟨.alreadyInstalled, reg, 0⟩
  | _, _ => ⟨.invalidArgument, reg, 0⟩

/-- Modelled from the spec: `cleanup(handle) -> StatusCode` of §4.3
(absent from `src/`).  If `registry.unregister(handle)` returns false,
return `NotInstalled` without forwarding; otherwise forward to the
opaque module's cleanup entry point `dCleanup` and return `Success`,
surfacing a delegate-reported failure as `DelegateCleanupFailed` (the
registry entry is removed first either way). -/
def cleanup (dCleanup : RuntimeHandle → Bool)
    (reg : Registry) (handle : RuntimeHandle) : CleanupResult :=
  let (ok, reg1) := reg.unregister handle
  if ok then
    ⟨if dCleanup handle then .success else .delegateCleanupFailed, reg1, 1⟩
  else
    ⟨.notInstalled, reg, 0⟩

/-- One host-issued bridge operation, with the opaque delegate's verdict
for that call recorded as data (the delegate is an external
collaborator, so its verdict is an input of the model). -/
inductive BridgeOp where
  | installOp (handle : Option RuntimeHandle) (invoker : Option CallInvokerPtr)
      (delegateOk : Bool)
  | cleanupOp (handle : RuntimeHandle) (delegateOk : Bool)
deriving DecidableEq, Repr

/-- The registry after applying one bridge operation. -/
def applyOp (reg : Registry) (op : BridgeOp) : Registry :=
  match op with
  | .installOp h inv dOk => (install (fun _ _ => dOk) reg h inv).registry
  | .cleanupOp h dOk => (cleanup (fun _ => dOk) reg h).registry

/-- The registry reached from `reg` by a sequence of bridge
operations. -/
def runOps (reg : Registry) (ops : List BridgeOp) : Registry :=
  ops.foldl applyOp reg

/-- Thread-local state of one in-flight `install` call in the
concurrency model: `pc = 0` — about to attempt registration, `pc = 1` —
registration succeeded, about to invoke the opaque delegate, `pc = 2` —
returned, with the recorded status. -/
structure ThreadState where
  pc : Nat
  status : Option StatusCode
deriving DecidableEq, Repr

/-- Shared state of two install calls racing on one handle: the
registry, the two thread states, and the total number of opaque-module
install invocations made so far. -/
structure ConcState where
  reg : Registry
  t0 : ThreadState
  t1 : ThreadState
  delegateCalls : Nat
deriving DecidableEq, Repr

/-- Modelled from the spec (§5, absent from `src/`): one atomic step of
a single in-flight `install(h, _)` call whose delegate verdict is
`dok`.  Registry operations are mutually exclusive for the same handle,
so each registry access is one atomic step; the delegate call (and the
rollback on delegate failure) is the other step. -/
def threadStep (h : RuntimeHandle) (dok : Bool) (reg : Registry)
    (dc : Nat) (t : ThreadState) : Registry × Nat × ThreadState :=
  match t.pc with
  | 0 =>
    let (ok, reg1) := reg.register h
    if ok then (reg1, dc, ⟨1, none⟩)
    else (reg, dc, ⟨2, some .alreadyInstalled⟩)
  | 1 =>
    if dok then (reg, dc + 1, ⟨2, some .success⟩)
    else ((reg.unregister h).2, dc + 1, ⟨2, some .delegateInstallFailed⟩)
  | _ => (reg, dc, t)

/-- One interleaving step: the scheduler picks thread 0 (`which =
false`) or thread 1 (`which = true`) to take its next atomic step. -/
def concStep (h : RuntimeHandle) (d0 d1 : Bool) (s : ConcState)
    (which : Bool) : ConcState :=
  if which then
    let (reg, dc, t) := threadStep h d1 s.reg s.delegateCalls s.t1
    ⟨reg, s.t0, t, dc⟩
  else
    let (reg, dc, t) := threadStep h d0 s.reg s.delegateCalls s.t0
    ⟨reg, t, s.t1, dc⟩

/-- Run an interleaving: apply the scheduled steps in order. -/
def concRun (h : RuntimeHandle) (d0 d1 : Bool) (s : ConcState)
    (sched : List Bool) : ConcState :=
  sched.foldl (concStep h d0 d1) s

/-- Both install calls start at their registration attempt, with the
registry empty and the opaque module not yet invoked. -/
def concInit : ConcState := ⟨Registry.empty, ⟨0, none⟩, ⟨0, none⟩, 0⟩

/-- The set of configurations reachable by two `install(h, _)` calls
racing on the same handle `h` when both delegate verdicts are success,
listed explicitly. -/
def raceInv (h : RuntimeHandle) (s : ConcState) : Prop :=
  s = ⟨⟨[]⟩, ⟨0, none⟩, ⟨0, none⟩, 0⟩ ∨
  s = ⟨⟨[h]⟩, ⟨1, none⟩, ⟨0, none⟩, 0⟩ ∨
  s = ⟨⟨[h]⟩, ⟨0, none⟩, ⟨1, none⟩, 0⟩ ∨
  s = ⟨⟨[h]⟩, ⟨2, some .success⟩, ⟨0, none⟩, 1⟩ ∨
  s = ⟨⟨[h]⟩, ⟨0, none⟩, ⟨2, some .success⟩, 1⟩ ∨
  s = ⟨⟨[h]⟩, ⟨1, none⟩, ⟨2, some .alreadyInstalled⟩, 0⟩ ∨
  s = ⟨⟨[h]⟩, ⟨2, some .alreadyInstalled⟩, ⟨1, none⟩, 0⟩ ∨
  s = ⟨⟨[h]⟩, ⟨2, some .success⟩, ⟨2, some .alreadyInstalled⟩, 1⟩ ∨
  s = ⟨⟨[h]⟩, ⟨2, some .alreadyInstalled⟩, ⟨2, some .success⟩, 1⟩

lemma isRegistered_eq_false_iff (r : Registry) (h : RuntimeHandle) :
    r.isRegistered h = false ↔ h ∉ r.records := by
  simp [Registry.isRegistered]

lemma isRegistered_eq_true_iff (r : Registry) (h : RuntimeHandle) :
    r.isRegistered h = true ↔ h ∈ r.records := by
  simp [Registry.isRegistered]

lemma nodup_applyOp (reg : Registry) (op : BridgeOp)
    (hnd : reg.records.Nodup) : (applyOp reg op).records.Nodup := by
  cases op with
  | installOp h inv dOk =>
    cases h with
    | none => simpa [applyOp, install] using hnd
    | some h =>
      cases inv with
      | none => simpa [applyOp, install] using hnd
      | some inv =>
        by_cases hr : h ∈ reg.records
        · simpa [applyOp, install, Registry.register, Registry.isRegistered, hr]
            using hnd
        · cases dOk with
          | true =>
            simp [applyOp, install, Registry.register, Registry.isRegistered, hr]
            exact hnd
          | false =>
            simp [applyOp, install, Registry.register, Registry.unregister,
              Registry.isRegistered, hr]
            exact hnd
  | cleanupOp h dOk =>
    by_cases hr : h ∈ reg.records
    · simp [applyOp, cleanup, Registry.unregister, Registry.isRegistered, hr]
      exact List.Nodup.erase h hnd
    · simpa [applyOp, cleanup, Registry.unregister, Registry.isRegistered, hr]
        using hnd

lemma nodup_runOps (ops : List BridgeOp) :
    (runOps Registry.empty ops).records.Nodup := by
  suffices H : ∀ (reg : Registry), reg.records.Nodup →
      (runOps reg ops).records.Nodup by
    exact H Registry.empty (by simp [Registry.empty])
  induction ops with
  | nil => intro reg hreg; simpa [runOps] using hreg
  | cons op rest ih =>
    intro reg hreg
    simpa [runOps] using ih (applyOp reg op) (nodup_applyOp reg op hreg)

/-- C1: the bridge is a pure delegation facade — for every runtime
handle and call invoker, `veloq::installRustCrate(runtime, callInvoker)`
returns exactly `veloqrs::installRustCrate(runtime, callInvoker)` and
`veloq::cleanupRustCrate(runtime)` returns exactly
`veloqrs::cleanupRustCrate(runtime)`, both arguments passed unchanged
and the status untransformed; in particular the facade coincides with
the spec's pure delegation facade. -/
theorem C1_pure_delegation_facade
    (dInst : JsiRuntime → CallInvokerPtr → Nat) (dClean : JsiRuntime → Nat)
    (runtime : JsiRuntime) (callInvoker : CallInvokerPtr) :
    veloq.installRustCrate dInst runtime callInvoker
        = dInst runtime callInvoker ∧
    veloq.cleanupRustCrate dClean runtime = dClean runtime ∧
    veloq.installRustCrate dInst runtime callInvoker
        = specFacadeInstall dInst runtime callInvoker ∧
    veloq.cleanupRustCrate dClean runtime
        = specFacadeCleanup dClean runtime :=
  ⟨rfl, rfl, rfl, rfl⟩

/-- C2: core invariant — at every state reachable from the empty
registry by any interleaving-as-sequence of install and cleanup
operations, every RuntimeHandle has at most one InstallationRecord. -/
theorem C2_at_most_one_record_per_handle (ops : List BridgeOp)
    (h : RuntimeHandle) :
    (runOps Registry.empty ops).records.count h ≤ 1 :=
  List.nodup_iff_count_le_one.1 (nodup_runOps ops) h

/-- C3: a second `install(H, _)` without an intervening `cleanup(H)`
returns `AlreadyInstalled`, does not invoke the opaque module's install
entry point, and leaves the registry unchanged with exactly one active
record for H. -/
theorem C3_second_install_inert
    (dInstall : RuntimeHandle → CallInvokerPtr → Bool) (reg : Registry)
    (h : RuntimeHandle) (inv inv2 : CallInvokerPtr)
    (h1 : (install dInstall reg (some h) (some inv)).status = .success) :
    (install dInstall (install dInstall reg (some h) (some inv)).registry
        (some h) (some inv2)).status = .alreadyInstalled ∧
    (install dInstall (install dInstall reg (some h) (some inv)).registry
        (some h) (some inv2)).delegateCalls = 0 ∧
    (install dInstall (install dInstall reg (some h) (some inv)).registry
        (some h) (some inv2)).registry
      = (install dInstall reg (some h) (some inv)).registry ∧
    (install dInstall (install dInstall reg (some h) (some inv)).registry
        (some h) (some inv2)).registry.records.count h = 1 := by
  by_cases hr : h ∈ reg.records
  · exfalso
    simp [install, Registry.register, Registry.isRegistered, hr] at h1
  · by_cases hd : dInstall h inv = true
    · refine ⟨?_, ?_, ?_, ?_⟩ <;>
        simp [install, Registry.register, Registry.isRegistered, hr, hd,
          List.count_cons, List.count_eq_zero_of_not_mem hr]
    · exfalso
      simp [install, Registry.register, Registry.isRegistered, hr, hd] at h1

/-- Witness for C3 at a concrete input: handle 0, a delegate that always
succeeds, two invokers. -/
theorem C3_second_install_inert_witness :
    (install (fun _ _ => true) Registry.empty (some 0) (some ⟨1⟩)).status
        = .success ∧
    ((install (fun _ _ => true)
        (install (fun _ _ => true) Registry.empty (some 0) (some ⟨1⟩)).registry
        (some 0) (some ⟨2⟩)).status = .alreadyInstalled ∧
      (install (fun _ _ => true)
        (install (fun _ _ => true) Registry.empty (some 0) (some ⟨1⟩)).registry
        (some 0) (some ⟨2⟩)).delegateCalls = 0 ∧
      (install (fun _ _ => true)
        (install (fun _ _ => true) Registry.empty (some 0) (some ⟨1⟩)).registry
        (some 0) (some ⟨2⟩)).registry
        = (install (fun _ _ => true) Registry.empty (some 0) (some ⟨1⟩)).registry ∧
      (install (fun _ _ => true)
        (install (fun _ _ => true) Registry.empty (some 0) (some ⟨1⟩)).registry
        (some 0) (some ⟨2⟩)).registry.records.count 0 = 1) :=
  ⟨by decide,
    C3_second_install_inert (fun _ _ => true) Registry.empty 0 ⟨1⟩ ⟨2⟩ (by decide)⟩

/-- C4: `cleanup(H)` on a handle with no active record returns
`NotInstalled`, does not forward to the opaque module's cleanup entry
point, and mutates no state. -/
theorem C4_cleanup_without_install_inert
    (dCleanup : RuntimeHandle → Bool) (reg : Registry) (h : RuntimeHandle)
    (hnr : reg.isRegistered h = false) :
    (cleanup dCleanup reg h).status = .notInstalled ∧
    (cleanup dCleanup reg h).registry = reg ∧
    (cleanup dCleanup reg h).delegateCalls = 0 := by
  refine ⟨?_, ?_, ?_⟩ <;> simp [cleanup, Registry.unregister, hnr]

/-- Witness for C4 at a concrete input: the empty registry and
handle 5. -/
theorem C4_cleanup_without_install_inert_witness :
    Registry.empty.isRegistered 5 = false ∧
    ((cleanup (fun _ => true) Registry.empty 5).status = .notInstalled ∧
      (cleanup (fun _ => true) Registry.empty 5).registry = Registry.empty ∧
      (cleanup (fun _ => true) Registry.empty 5).delegateCalls = 0) :=
  ⟨by decide,
    C4_cleanup_without_install_inert (fun _ => true) Registry.empty 5 (by decide)⟩

/-- C5: when the opaque module's install delegate reports failure for a
handle not yet registered, `install` rolls back the registry entry and
returns `DelegateInstallFailed`; afterwards `isRegistered(H)` is false
and the registry equals its pre-call value. -/
theorem C5_delegate_failure_rollback
    (dInstall : RuntimeHandle → CallInvokerPtr → Bool) (reg : Registry)
    (h : RuntimeHandle) (inv : CallInvokerPtr)
    (hnr : reg.isRegistered h = false) (hfail : dInstall h inv = false) :
    (install dInstall reg (some h) (some inv)).status
        = .delegateInstallFailed ∧
    (install dInstall reg (some h) (some inv)).registry.isRegistered h
        = false ∧
    (install dInstall reg (some h) (some inv)).registry = reg := by
  have hmem : h ∉ reg.records := (isRegistered_eq_false_iff reg h).1 hnr
  refine ⟨?_, ?_, ?_⟩ <;>
    simp [install, Registry.register, Registry.unregister,
      Registry.isRegistered, hmem, hfail]

/-- Witness for C5 at a concrete input: empty registry, handle 3, a
delegate that always fails. -/
theorem C5_delegate_failure_rollback_witness :
    Registry.empty.isRegistered 3 = false ∧
    ((fun (_ : RuntimeHandle) (_ : CallInvokerPtr) => false) 3 ⟨1⟩ = false ∧
      ((install (fun _ _ => false) Registry.empty (some 3) (some ⟨1⟩)).status
          = .delegateInstallFailed ∧
        (install (fun _ _ => false) Registry.empty (some 3)
            (some ⟨1⟩)).registry.isRegistered 3 = false ∧
        (install (fun _ _ => false) Registry.empty (some 3)
            (some ⟨1⟩)).registry = Registry.empty)) :=
  ⟨by decide, by decide,
    C5_delegate_failure_rollback (fun _ _ => false) Registry.empty 3 ⟨1⟩
      (by decide) (by decide)⟩

/-- C6: a null/malformed handle or invoker makes `install` return
`InvalidArgument` before any registration or forwarding: the registry is
untouched and the opaque module is never invoked. -/
theorem C6_invalid_argument_inert
    (dInstall : RuntimeHandle → CallInvokerPtr → Bool) (reg : Registry)
    (handle : Option RuntimeHandle) (invoker : Option CallInvokerPtr)
    (hbad : handle = none ∨ invoker = none) :
    (install dInstall reg handle invoker).status = .invalidArgument ∧
    (install dInstall reg handle invoker).registry = reg ∧
    (install dInstall reg handle invoker).delegateCalls = 0 := by
  rcases hbad with rfl | rfl
  · refine ⟨?_, ?_, ?_⟩ <;> simp [install]
  · cases handle <;> (refine ⟨?_, ?_, ?_⟩ <;> simp [install])

/-- Witness for C6 at a concrete input: a null invoker. -/
theorem C6_invalid_argument_inert_witness :
    ((some 0 : Option RuntimeHandle) = none ∨
      (none : Option CallInvokerPtr) = none) ∧
    ((install (fun _ _ => true) Registry.empty (some 0) none).status
        = .invalidArgument ∧
      (install (fun _ _ => true) Registry.empty (some 0) none).registry
        = Registry.empty ∧
      (install (fun _ _ => true) Registry.empty (some 0) none).delegateCalls
        = 0) :=
  ⟨Or.inr rfl,
    C6_invalid_argument_inert (fun _ _ => true) Registry.empty (some 0) none
      (Or.inr rfl)⟩

/-- C7: installation is a reusable cycle — for a handle starting
Uninstalled, with the opaque delegates reporting success,
`install(H,_)`, `cleanup(H)` and a third call `install(H,_)` all return
`Success`. -/
theorem C7_install_cycle_reusable
    (dInstall : RuntimeHandle → CallInvokerPtr → Bool)
    (dCleanup : RuntimeHandle → Bool) (reg : Registry)
    (h : RuntimeHandle) (inv : CallInvokerPtr)
    (hstart : reg.isRegistered h = false)
    (hd : dInstall h inv = true) (hc : dCleanup h = true) :
    (install dInstall reg (some h) (some inv)).status = .success ∧
    (cleanup dCleanup (install dInstall reg (some h) (some inv)).registry
        h).status = .success ∧
    (install dInstall
        (cleanup dCleanup
          (install dInstall reg (some h) (some inv)).registry h).registry
        (some h) (some inv)).status = .success := by
  have hmem : h ∉ reg.records := (isRegistered_eq_false_iff reg h).1 hstart
  refine ⟨?_, ?_, ?_⟩ <;>
    simp [install, cleanup, Registry.register, Registry.unregister,
      Registry.isRegistered, hmem, hd, hc]

/-- Witness for C7 at a concrete input: handle 2, always-succeeding
delegates, starting from the empty registry. -/
theorem C7_install_cycle_reusable_witness :
    Registry.empty.isRegistered 2 = false ∧
    ((install (fun _ _ => true) Registry.empty (some 2) (some ⟨1⟩)).status
        = .success ∧
      (cleanup (fun _ => true)
        (install (fun _ _ => true) Registry.empty (some 2)
          (some ⟨1⟩)).registry 2).status = .success ∧
      (install (fun _ _ => true)
        (cleanup (fun _ => true)
          (install (fun _ _ => true) Registry.empty (some 2)
            (some ⟨1⟩)).registry 2).registry
        (some 2) (some ⟨1⟩)).status = .success) :=
  ⟨by decide,
    C7_install_cycle_reusable (fun _ _ => true) (fun _ => true)
      Registry.empty 2 ⟨1⟩ (by decide) (by decide) (by decide)⟩

/-- C9: the bridge layer is stateless — in the stateful embedding, a
bridge call is exactly the single delegate call: the returned status and
the whole poststate coincide with the delegate's, so every observable
state effect occurs inside the delegate and everything outside it is
left unchanged. -/
theorem C9_bridge_stateless {σ : Type}
    (dInst : JsiRuntime → CallInvokerPtr → σ → Nat × σ)
    (dClean : JsiRuntime → σ → Nat × σ)
    (runtime : JsiRuntime) (callInvoker : CallInvokerPtr) (w : σ) :
    veloq.installRustCrateSt dInst runtime callInvoker w
        = dInst runtime callInvoker w ∧
    veloq.cleanupRustCrateSt dClean runtime w = dClean runtime w :=
  ⟨rfl, rfl⟩

/-- C10: both bridge operations are deterministic with no hidden
dependency on call history — two calls with equal arguments whose
delegate calls produce equal statuses return equal statuses, whatever
ambient state each call starts from. -/
theorem C10_deterministic_no_history {σ : Type}
    (dInst : JsiRuntime → CallInvokerPtr → σ → Nat × σ)
    (dClean : JsiRuntime → σ → Nat × σ)
    (runtime : JsiRuntime) (callInvoker : CallInvokerPtr) (w1 w2 : σ)
    (hI : (dInst runtime callInvoker w1).1 = (dInst runtime callInvoker w2).1)
    (hC : (dClean runtime w1).1 = (dClean runtime w2).1) :
    (veloq.installRustCrateSt dInst runtime callInvoker w1).1
        = (veloq.installRustCrateSt dInst runtime callInvoker w2).1 ∧
    (veloq.cleanupRustCrateSt dClean runtime w1).1
        = (veloq.cleanupRustCrateSt dClean runtime w2).1 :=
  ⟨hI, hC⟩

/-- Witness for C10 at a concrete input: state type `Nat`, delegates
whose status ignores the state, two distinct prestates. -/
theorem C10_deterministic_no_history_witness :
    ((fun (_ : JsiRuntime) (_ : CallInvokerPtr) (w : Nat) => (7, w + 1))
        ⟨0⟩ ⟨1⟩ 0).1
      = ((fun (_ : JsiRuntime) (_ : CallInvokerPtr) (w : Nat) => (7, w + 1))
        ⟨0⟩ ⟨1⟩ 5).1 ∧
    ((veloq.installRustCrateSt
        (fun _ _ (w : Nat) => (7, w + 1)) ⟨0⟩ ⟨1⟩ 0).1
      = (veloq.installRustCrateSt
        (fun _ _ (w : Nat) => (7, w + 1)) ⟨0⟩ ⟨1⟩ 5).1 ∧
      (veloq.cleanupRustCrateSt
        (fun _ (w : Nat) => (9, w + 2)) ⟨0⟩ 0).1
      = (veloq.cleanupRustCrateSt
        (fun _ (w : Nat) => (9, w + 2)) ⟨0⟩ 5).1) :=
  ⟨rfl,
    C10_deterministic_no_history (fun _ _ (w : Nat) => (7, w + 1))
      (fun _ (w : Nat) => (9, w + 2)) ⟨0⟩ ⟨1⟩ 0 5 rfl rfl⟩

lemma raceInv_step (h : RuntimeHandle) (s : ConcState) (b : Bool)
    (hs : raceInv h s) : raceInv h (concStep h true true s b) := by
  rcases hs with rfl | rfl | rfl | rfl | rfl | rfl | rfl | rfl | rfl <;>
    cases b <;>
      simp [raceInv, concStep, threadStep, Registry.register,
        Registry.unregister, Registry.isRegistered]

lemma raceInv_run (h : RuntimeHandle) (sched : List Bool) :
    raceInv h (concRun h true true concInit sched) := by
  suffices H : ∀ s, raceInv h s → raceInv h (concRun h true true s sched) by
    exact H concInit (Or.inl rfl)
  induction sched with
  | nil => intro s hs; simpa [concRun] using hs
  | cons b rest ih =>
    intro s hs
    simpa [concRun] using ih (concStep h true true s b) (raceInv_step h s b hs)

/-- C8: two `install` calls racing on the same handle, with succeeding
delegates — in every interleaving in which both calls have returned,
exactly one returns `Success` and the other `AlreadyInstalled`, the
opaque module's install entry point was invoked exactly once, and the
registry holds exactly one active record for the handle. -/
theorem C8_concurrent_install_race (h : RuntimeHandle) (sched : List Bool)
    (hdone0 : (concRun h true true concInit sched).t0.pc = 2)
    (hdone1 : (concRun h true true concInit sched).t1.pc = 2) :
    (((concRun h true true concInit sched).t0.status = some .success ∧
        (concRun h true true concInit sched).t1.status
          = some .alreadyInstalled) ∨
      ((concRun h true true concInit sched).t0.status
          = some .alreadyInstalled ∧
        (concRun h true true concInit sched).t1.status = some .success)) ∧
    (concRun h true true concInit sched).delegateCalls = 1 ∧
    (concRun h true true concInit sched).reg.records.count h = 1 := by
  have hinv := raceInv_run h sched
  rcases hinv with heq | heq | heq | heq | heq | heq | heq | heq | heq <;>
    rw [heq] at hdone0 hdone1 ⊢
  · simp at hdone0
  · simp at hdone0
  · simp at hdone0
  · simp at hdone1
  · simp at hdone0
  · simp at hdone0
  · simp at hdone1
  · exact ⟨Or.inl ⟨rfl, rfl⟩, rfl, by simp⟩
  · exact ⟨Or.inr ⟨rfl, rfl⟩, rfl, by simp⟩

/-- Witness for C8 at a concrete interleaving: handle 0, thread 0 runs
to completion, then thread 1 takes its step. -/
theorem C8_concurrent_install_race_witness :
    (concRun 0 true true concInit [false, false, true]).t0.pc = 2 ∧
    (concRun 0 true true concInit [false, false, true]).t1.pc = 2 ∧
    ((((concRun 0 true true concInit [false, false, true]).t0.status
          = some .success ∧
        (concRun 0 true true concInit [false, false, true]).t1.status
          = some .alreadyInstalled) ∨
      ((concRun 0 true true concInit [false, false, true]).t0.status
          = some .alreadyInstalled ∧
        (concRun 0 true true concInit [false, false, true]).t1.status
          = some .success)) ∧
      (concRun 0 true true concInit [false, false, true]).delegateCalls = 1 ∧
      (concRun 0 true true concInit
          [false, false, true]).reg.records.count 0 = 1) :=
  ⟨by decide, by decide,
    C8_concurrent_install_race 0 [false, false, true] (by decide) (by decide)⟩
